import Mathlib

/-!
Verification of the SDO server state machine of src/canopen/sdo/server.py.

Frames are lists of byte values (Nat); every handler is embedded as a pure
function from the server state and the inbound frame to the new state and the
list of outbound frames it emits (abort frames included).  Exceptions raised
by the Python code and caught in on_request (SdoAbortedError, KeyError,
AttributeError) are modelled by emitting the abort frame the handler would
cause to be sent, at the point where the exception escapes.
-/

namespace Canopen

/-- Modelled from the spec: the command-specifier constants imported from the
sdo constants module, which is not among the sources; the values follow the
wire format the spec describes (top 3 bits of byte 0 select the command
family; block sub-commands in the low 2 bits; flag bits for expedited,
size-specified, toggle, CRC support). -/
def REQUEST_SEGMENT_DOWNLOAD : Nat := 0x00
def REQUEST_DOWNLOAD : Nat := 0x20
def REQUEST_UPLOAD : Nat := 0x40
def REQUEST_SEGMENT_UPLOAD : Nat := 0x60
def REQUEST_ABORTED : Nat := 0x80
def REQUEST_BLOCK_UPLOAD : Nat := 0xA0
def REQUEST_BLOCK_DOWNLOAD : Nat := 0xC0
def RESPONSE_SEGMENT_UPLOAD : Nat := 0x00
def RESPONSE_SEGMENT_DOWNLOAD : Nat := 0x20
def RESPONSE_UPLOAD : Nat := 0x40
def RESPONSE_DOWNLOAD : Nat := 0x60
def RESPONSE_ABORTED : Nat := 0x80
def RESPONSE_BLOCK_DOWNLOAD : Nat := 0xA0
def RESPONSE_BLOCK_UPLOAD : Nat := 0xC0
def EXPEDITED : Nat := 0x02
def SIZE_SPECIFIED : Nat := 0x01
def TOGGLE_BIT : Nat := 0x10
def NO_MORE_DATA : Nat := 0x01
def INITIATE_BLOCK_TRANSFER : Nat := 0x00
def END_BLOCK_TRANSFER : Nat := 0x01
def BLOCK_TRANSFER_RESPONSE : Nat := 0x02
def START_BLOCK_UPLOAD : Nat := 0x03
def NO_MORE_BLOCKS : Nat := 0x80
def BLOCK_SIZE_SPECIFIED : Nat := 0x02
def CRC_SUPPORTED : Nat := 0x04

/-- Modelled from the spec: the 32-bit abort reason codes imported from the
missing constants module (toggle not alternated, invalid command, invalid
block sequence number, CRC error, object not in dictionary, general error,
store-application failure, no data available). -/
def ABORT_TOGGLE_NOT_ALTERNATED : Nat := 0x05030000
def ABORT_INVALID_COMMAND_SPECIFIER : Nat := 0x05040001
def ABORT_INVALID_SEQUENCE_NUMBER : Nat := 0x05040003
def ABORT_CRC_ERROR : Nat := 0x05040004
def ABORT_NOT_IN_OD : Nat := 0x06020000
def ABORT_GENERAL_ERROR : Nat := 0x08000000
def ABORT_STORE_APPLICATION : Nat := 0x08000020
def ABORT_NO_DATA_AVAILABLE : Nat := 0x08000024

/-- Byte i of a frame (0 when the frame is shorter, matching a zero-padded
8-byte CAN frame). -/
def getByte (l : List Nat) (i : Nat) : Nat := l.getD i 0

/-- Little-endian 16-bit read at offset i, as struct.unpack_from with format
less-than H does. -/
def getU16 (l : List Nat) (i : Nat) : Nat := getByte l i + 256 * getByte l (i + 1)

/-- Little-endian 32-bit read at offset i, as struct.unpack_from with format
less-than L does. -/
def getU32 (l : List Nat) (i : Nat) : Nat :=
  getByte l i + 256 * getByte l (i + 1) + 65536 * getByte l (i + 2) +
    16777216 * getByte l (i + 3)

/-- Little-endian 16-bit encoding, as struct.pack_into writes it. -/
def le16 (n : Nat) : List Nat := [n % 256, n / 256 % 256]

/-- Little-endian 32-bit encoding, as struct.pack_into writes it. -/
def le32 (n : Nat) : List Nat :=
  [n % 256, n / 256 % 256, n / 65536 % 256, n / 16777216 % 256]

/-- The SDO_STRUCT header (command byte, 16-bit index little-endian,
subindex) packed into the first four bytes of a frame. -/
def pack4 (cmd i sub : Nat) : List Nat := [cmd % 256, i % 256, i / 256 % 256, sub % 256]

/-- Modelled from the spec: the object store behind node.get_data /
node.set_data (the node class is not among the sources).  A write replaces
the entry; a read returns the first binding. -/
abbrev Store : Type := List ((Nat × Nat) × List Nat)

/-- Modelled from the spec: object-store read; none models the KeyError /
NotFound outcome. -/
def lookupStore : Store → Nat → Nat → Option (List Nat)
  | [], _, _ => none
  | (k, v) :: rest, i, sub => if k = (i, sub) then some v else lookupStore rest i sub

/-- Modelled from the spec: object-store write (always writable in the
scenarios considered; access checks live outside the sources). -/
def setStore (st : Store) (i sub : Nat) (v : List Nat) : Store := ((i, sub), v) :: st

/-- Modelled from the spec: one byte step of the CRC-CCITT/XMODEM checksum
(polynomial 0x1021, initial value 0) that the checksum primitive of the
missing sdo base module implements. -/
def crcByteStep (crc b : Nat) : Nat :=
  (List.range 8).foldl
    (fun c _ => if c &&& 0x8000 ≠ 0 then ((c <<< 1) ^^^ 0x1021) &&& 0xFFFF
                else (c <<< 1) &&& 0xFFFF)
    ((crc ^^^ (b <<< 8)) &&& 0xFFFF)

/-- Modelled from the spec: the process method of the checksum primitive,
folding a byte string into the running state. -/
def crcProcess (crc : Nat) (data : List Nat) : Nat := data.foldl crcByteStep crc

/-- Modelled from the spec: a freshly created checksum object's state. -/
def crcInit : Nat := 0

/-- Modelled from the spec: the final method of the checksum primitive. -/
def crcFinal (crc : Nat) : Nat := crc

/-- The SdoServer session state: the fields set in SdoServer.__init__ plus
the object store the node provides.  blockCrc models the _block_crc member
(none when the Python attribute is None, some state when a checksum object
is present). -/
structure Srv where
  store : Store
  buffer : Option (List Nat)
  toggle : Nat
  index : Nat
  subindex : Nat
  lastReceivedError : Nat
  blockSequence : Nat
  blockSize : Nat
  blockCrc : Option Nat
  blockCrcSupported : Bool
  blockData : Option (List Nat)
  blockTotalSize : Nat
  blockSentSegments : List (Nat × List Nat)
  blockMode : Bool
  lastSegmentSize : Nat
  deriving Repr, DecidableEq

/-- The state right after SdoServer.__init__ (index/subindex, set to None in
Python and never read before being assigned, start at 0). -/
def initSrv (store : Store) : Srv :=
  { store := store, buffer := none, toggle := 0, index := 0, subindex := 0,
    lastReceivedError := 0, blockSequence := 0, blockSize := 127,
    blockCrc := none, blockCrcSupported := false, blockData := none,
    blockTotalSize := 0, blockSentSegments := [], blockMode := false,
    lastSegmentSize := 0 }

/-- The abort frame SdoServer.abort sends: RESPONSE_ABORTED header with the
session's current index/subindex and the 32-bit code. -/
def mkAbortFrame (i sub code : Nat) : List Nat :=
  [RESPONSE_ABORTED, i % 256, i / 256 % 256, sub % 256] ++ le32 code

/-- SdoServer.init_upload. -/
def init_upload (s : Srv) (request : List Nat) : Srv × List (List Nat) :=
  let index := getU16 request 1
  let subindex := getByte request 3
  let s := { s with index := index, subindex := subindex, blockMode := false }
  match lookupStore s.store index subindex with
  | none => (s, [mkAbortFrame s.index s.subindex ABORT_NOT_IN_OD])
  | some data =>
    let size := data.length
    if size = 0 then
      (s, [mkAbortFrame s.index s.subindex ABORT_NO_DATA_AVAILABLE])
    else if size ≤ 4 then
      let res_command := RESPONSE_UPLOAD ||| SIZE_SPECIFIED ||| EXPEDITED |||
        ((4 - size) <<< 2)
      (s, [pack4 res_command index subindex ++ data ++ List.replicate (4 - size) 0])
    else
      let res_command := RESPONSE_UPLOAD ||| SIZE_SPECIFIED
      ({ s with buffer := some data, toggle := 0 },
       [pack4 res_command index subindex ++ le32 size])

/-- SdoServer.segmented_upload. -/
def segmented_upload (s : Srv) (command : Nat) : Srv × List (List Nat) :=
  match s.buffer with
  | none => (s, [mkAbortFrame s.index s.subindex ABORT_GENERAL_ERROR])
  | some buf =>
    if command &&& TOGGLE_BIT ≠ s.toggle then
      (s, [mkAbortFrame s.index s.subindex ABORT_TOGGLE_NOT_ALTERNATED])
    else
      let data := buf.take 7
      let size := data.length
      let buf2 := buf.drop 7
      let res_command := RESPONSE_SEGMENT_UPLOAD ||| s.toggle |||
        ((7 - size) <<< 1) ||| (if buf2.isEmpty then NO_MORE_DATA else 0)
      ({ s with buffer := some buf2, toggle := s.toggle ^^^ TOGGLE_BIT },
       [[res_command] ++ data ++ List.replicate (7 - size) 0])

/-- SdoServer.init_download. -/
def init_download (s : Srv) (request : List Nat) : Srv × List (List Nat) :=
  let command := getByte request 0
  let index := getU16 request 1
  let subindex := getByte request 3
  let s := { s with index := index, subindex := subindex, blockMode := false }
  if command &&& EXPEDITED ≠ 0 then
    let size := if command &&& SIZE_SPECIFIED ≠ 0 then 4 - ((command >>> 2) &&& 0x3)
                else 4
    ({ s with store := setStore s.store index subindex ((request.drop 4).take size) },
     [pack4 RESPONSE_DOWNLOAD index subindex ++ [0, 0, 0, 0]])
  else
    ({ s with buffer := some [], toggle := 0 },
     [pack4 RESPONSE_DOWNLOAD index subindex ++ [0, 0, 0, 0]])

/-- SdoServer.segmented_download. -/
def segmented_download (s : Srv) (command : Nat) (request : List Nat) :
    Srv × List (List Nat) :=
  if command &&& TOGGLE_BIT ≠ s.toggle then
    (s, [mkAbortFrame s.index s.subindex ABORT_TOGGLE_NOT_ALTERNATED])
  else
    match s.buffer with
    | none => (s, [mkAbortFrame s.index s.subindex ABORT_GENERAL_ERROR])
    | some buf =>
      let last_byte := 8 - ((command >>> 1) &&& 0x7)
      let buf := buf ++ (request.drop 1).take (last_byte - 1)
      let s := { s with buffer := some buf }
      let s := if command &&& NO_MORE_DATA ≠ 0 then
                 { s with store := setStore s.store s.index s.subindex buf }
               else s
      let res_command := RESPONSE_SEGMENT_DOWNLOAD ||| s.toggle
      ({ s with toggle := s.toggle ^^^ TOGGLE_BIT },
       [[res_command, 0, 0, 0, 0, 0, 0, 0]])

/-- SdoServer._init_block_upload. -/
def init_block_upload (s : Srv) (command : Nat) (request : List Nat) :
    Srv × List (List Nat) :=
  let client_crc_support := command &&& CRC_SUPPORTED ≠ 0
  let client_blksize := if request.length > 4 then getByte request 4 else 127
  let s := { s with blockSize := min (max client_blksize 1) 127 }
  match lookupStore s.store s.index s.subindex with
  | none => (s, [mkAbortFrame s.index s.subindex ABORT_NOT_IN_OD])
  | some data =>
    let size := data.length
    if size = 0 then
      (s, [mkAbortFrame s.index s.subindex ABORT_NO_DATA_AVAILABLE])
    else
      let s := { s with blockData := some data, blockTotalSize := size,
                        blockSequence := 0, blockSentSegments := [],
                        blockMode := true,
                        blockCrcSupported := client_crc_support,
                        blockCrc := if client_crc_support then some crcInit
                                    else s.blockCrc }
      let res_command := RESPONSE_BLOCK_UPLOAD ||| INITIATE_BLOCK_TRANSFER |||
        (if client_crc_support then CRC_SUPPORTED else 0) ||| BLOCK_SIZE_SPECIFIED
      (s, [pack4 res_command s.index s.subindex ++ le32 size])

/-- The while loop of SdoServer._send_block_upload_segments; the fuel is the
number of segments the window may still send. -/
def sendSegmentsLoop : Nat → Srv → Srv × List (List Nat)
  | 0, s => (s, [])
  | fuel + 1, s =>
    match s.blockData with
    | none => (s, [])
    | some [] => (s, [])
    | some (b :: bs) =>
      let buf : List Nat := b :: bs
      let seq := s.blockSequence + 1
      let segment_data := buf.take 7
      let rest := buf.drop 7
      let lastSeg := if rest.isEmpty then segment_data.length else s.lastSegmentSize
      let res_command := seq ||| (if rest.isEmpty then NO_MORE_BLOCKS else 0)
      let response := [res_command] ++ segment_data ++
        List.replicate (7 - segment_data.length) 0
      let crc2 := if s.blockCrcSupported ∧ s.blockCrc.isSome then
                    s.blockCrc.map (fun c => crcProcess c segment_data)
                  else s.blockCrc
      let s2 := { s with blockSequence := seq, blockData := some rest,
                         lastSegmentSize := lastSeg,
                         blockSentSegments := s.blockSentSegments ++ [(seq, response)],
                         blockCrc := crc2 }
      let r := sendSegmentsLoop fuel s2
      (r.1, response :: r.2)

/-- SdoServer._send_block_upload_segments. -/
def send_block_upload_segments (s : Srv) : Srv × List (List Nat) :=
  sendSegmentsLoop s.blockSize s

/-- SdoServer._end_block_upload. -/
def end_block_upload (s : Srv) : Srv × List (List Nat) :=
  let unused_bytes := if s.lastSegmentSize > 0 then 7 - s.lastSegmentSize else 0
  let res_command := RESPONSE_BLOCK_UPLOAD ||| END_BLOCK_TRANSFER |||
    ((unused_bytes &&& 0x7) <<< 2)
  let crcbytes := if s.blockCrcSupported ∧ s.blockCrc.isSome then
                    le16 (crcFinal (s.blockCrc.getD 0))
                  else [0, 0]
  ({ s with blockData := none, blockCrc := none, blockMode := false },
   [[res_command] ++ crcbytes ++ [0, 0, 0, 0, 0]])

/-- SdoServer._handle_block_upload_ack. -/
def handle_block_upload_ack (s : Srv) (request : List Nat) : Srv × List (List Nat) :=
  let ackseq := if request.length > 1 then getByte request 1 else 0
  let blksize := if request.length > 2 then getByte request 2 else s.blockSize
  let s := { s with blockSize := min (max blksize 1) 127 }
  if ackseq < s.blockSequence then
    let segments_to_send := (s.blockSentSegments.filter (fun p => ackseq < p.1)).mergeSort
      (fun a b => a.1 ≤ b.1)
    (s, segments_to_send.map Prod.snd)
  else
    let s := { s with blockSentSegments := [], blockSequence := 0 }
    match s.blockData with
    | some (_ :: _) => send_block_upload_segments s
    | _ => end_block_upload s

/-- SdoServer._start_block_upload. -/
def start_block_upload (s : Srv) (_request : List Nat) : Srv × List (List Nat) :=
  send_block_upload_segments s

/-- SdoServer.block_upload: sub-command dispatch of block-upload family
frames. -/
def block_upload (s : Srv) (data : List Nat) : Srv × List (List Nat) :=
  let command := getByte data 0
  if command &&& 0xE0 = REQUEST_BLOCK_UPLOAD then
    let sub_cmd := command &&& 0x03
    if sub_cmd = INITIATE_BLOCK_TRANSFER then
      let index := getU16 data 1
      let subindex := getByte data 3
      init_block_upload { s with index := index, subindex := subindex } command data
    else if sub_cmd = START_BLOCK_UPLOAD then
      start_block_upload s data
    else if sub_cmd = BLOCK_TRANSFER_RESPONSE then
      handle_block_upload_ack s data
    else if sub_cmd = END_BLOCK_TRANSFER then
      end_block_upload s
    else
      (s, [mkAbortFrame s.index s.subindex ABORT_INVALID_COMMAND_SPECIFIER])
  else
    (s, [mkAbortFrame s.index s.subindex ABORT_INVALID_COMMAND_SPECIFIER])

/-- SdoServer.request_aborted: record the peer's abort code. -/
def request_aborted (s : Srv) (data : List Nat) : Srv × List (List Nat) :=
  ({ s with lastReceivedError := getU32 data 4 }, [])

/-- SdoServer._init_block_download. -/
def init_block_download (s : Srv) (command : Nat) (request : List Nat) :
    Srv × List (List Nat) :=
  let client_crc_support := command &&& CRC_SUPPORTED ≠ 0
  let total := if command &&& BLOCK_SIZE_SPECIFIED ≠ 0 then getU32 request 4 else 0
  let s := { s with blockTotalSize := total, blockData := some [],
                    blockSequence := 0, blockSize := 127, blockMode := true,
                    blockCrcSupported := client_crc_support,
                    blockCrc := if client_crc_support then some crcInit
                                else s.blockCrc }
  let res_command := RESPONSE_BLOCK_DOWNLOAD ||| INITIATE_BLOCK_TRANSFER |||
    (if client_crc_support then CRC_SUPPORTED else 0)
  (s, [pack4 res_command s.index s.subindex ++ [s.blockSize, 0, 0, 0]])

/-- SdoServer._handle_block_download_segment. -/
def handle_block_download_segment (s : Srv) (command : Nat) (request : List Nat) :
    Srv × List (List Nat) :=
  let sequence := command &&& 0x7F
  let is_last := command &&& 0x80 ≠ 0
  if sequence ≠ s.blockSequence + 1 then
    (s, [mkAbortFrame s.index s.subindex ABORT_INVALID_SEQUENCE_NUMBER])
  else
    let s := { s with blockSequence := sequence }
    let segment_data := (request.drop 1).take 7
    let s := match s.blockData with
             | some buf => { s with blockData := some (buf ++ segment_data) }
             | none => s
    let s := if s.blockCrcSupported ∧ s.blockCrc.isSome then
               { s with blockCrc := s.blockCrc.map (fun c => crcProcess c segment_data) }
             else s
    if s.blockSize ≤ sequence ∨ is_last then
      ({ s with blockSequence := 0 },
       [[RESPONSE_BLOCK_DOWNLOAD ||| BLOCK_TRANSFER_RESPONSE, sequence, s.blockSize,
         0, 0, 0, 0, 0]])
    else
      (s, [])

/-- SdoServer._end_block_download. -/
def end_block_download (s : Srv) (command : Nat) (request : List Nat) :
    Srv × List (List Nat) :=
  let n := (command >>> 2) &&& 0x07
  let s := { s with blockData := s.blockData.map (fun b => b.take (b.length - n)) }
  let s := if s.blockCrcSupported ∧ s.blockCrc.isSome ∧
              (s.blockData.getD []).isEmpty = false then
             { s with blockCrc := some (crcProcess crcInit (s.blockData.getD [])) }
           else s
  if s.blockCrcSupported ∧ 3 ≤ request.length ∧ s.blockCrc.isSome ∧
     getU16 request 1 ≠ crcFinal (s.blockCrc.getD 0) then
    (s, [mkAbortFrame s.index s.subindex ABORT_CRC_ERROR])
  else
    match s.blockData with
    | some buf =>
      let s := { s with store := setStore s.store s.index s.subindex buf }
      ({ s with blockData := none, blockCrc := none, blockMode := false },
       [[RESPONSE_BLOCK_DOWNLOAD ||| END_BLOCK_TRANSFER, 0, 0, 0, 0, 0, 0, 0]])
    | none =>
      (s, [mkAbortFrame s.index s.subindex ABORT_GENERAL_ERROR])

/-- SdoServer.block_download: distinguishes initiate (bit 0 clear) and end
(bit 0 set) frames of the block-download family from data segments. -/
def block_download (s : Srv) (data : List Nat) : Srv × List (List Nat) :=
  let command := getByte data 0
  let index := getU16 data 1
  let subindex := getByte data 3
  if command &&& 0xE0 = REQUEST_BLOCK_DOWNLOAD then
    if command &&& 0x01 = 0 then
      init_block_download { s with index := index, subindex := subindex } command data
    else
      end_block_download s command data
  else
    handle_block_download_segment s command data

/-- SdoServer.on_request: the frame dispatcher. -/
def on_request (s : Srv) (data : List Nat) : Srv × List (List Nat) :=
  let command := getByte data 0
  let ccs := command &&& 0xE0
  if ccs = REQUEST_UPLOAD then init_upload s data
  else if ccs = REQUEST_SEGMENT_UPLOAD then segmented_upload s command
  else if ccs = REQUEST_DOWNLOAD then init_download s data
  else if ccs = REQUEST_SEGMENT_DOWNLOAD then
    if s.blockMode then block_download s data else segmented_download s command data
  else if ccs = REQUEST_BLOCK_UPLOAD then block_upload s data
  else if ccs = REQUEST_BLOCK_DOWNLOAD then block_download s data
  else if ccs = REQUEST_ABORTED then
    if s.blockMode ∧ command &&& 0x7F > 0 then block_download s data
    else request_aborted s data
  else
    if s.blockMode ∧ command &&& 0xE0 = 0 then block_download s data
    else (s, [mkAbortFrame s.index s.subindex ABORT_INVALID_COMMAND_SPECIFIER])

/-- Feed a list of frames to the server in order, collecting every outbound
frame. -/
def runFrames (s : Srv) : List (List Nat) → Srv × List (List Nat)
  | [] => (s, [])
  | f :: rest =>
    let r1 := on_request s f
    let r2 := runFrames r1.1 rest
    (r2.1, r1.2 ++ r2.2)

/-- Number of 7-byte segment frames needed for a payload of length L:
the ceiling of L / 7. -/
def numSegs (L : Nat) : Nat := (L + 6) / 7

/-- The initiate frame a client sends for a segmented download of the given
size: download family, size-specified flag, expedited flag clear, 32-bit
length at bytes 4-7. -/
def downloadInitFrame (i sub size : Nat) : List Nat :=
  [REQUEST_DOWNLOAD ||| SIZE_SPECIFIED, i % 256, i / 256 % 256, sub % 256] ++ le32 size

/-- The segment frames a client sends to download a payload: 7-byte chunks
in order, toggle bit alternating, the 3-bit unused count in bits 1-3 and the
no-more-data flag on the final frame.  The download-segment command family
code is 0x00 and contributes no bits to the command byte. -/
def downloadSegFrames (payload : List Nat) (tog : Nat) : List (List Nat) :=
  if payload.isEmpty then []
  else
    let chunk := payload.take 7
    let n := chunk.length
    let cmd := tog ||| ((7 - n) <<< 1) |||
      (if (payload.drop 7).isEmpty then NO_MORE_DATA else 0)
    ([cmd] ++ chunk ++ List.replicate (7 - n) 0) ::
      downloadSegFrames (payload.drop 7) (tog ^^^ TOGGLE_BIT)
termination_by payload.length
decreasing_by
  have hne : payload ≠ [] := by
    intro hh
    simp [hh] at *
  have hpos : 0 < payload.length := List.length_pos.mpr hne
  simp only [List.length_drop]
  omega

/-- The initiate frame a client sends to request an upload. -/
def uploadInitFrame (i sub : Nat) : List Nat :=
  [REQUEST_UPLOAD, i % 256, i / 256 % 256, sub % 256, 0, 0, 0, 0]

/-- k upload segment requests with alternating toggle bit. -/
def uploadReqFrames : Nat → Nat → List (List Nat)
  | 0, _ => []
  | k + 1, tog =>
    [REQUEST_SEGMENT_UPLOAD ||| tog, 0, 0, 0, 0, 0, 0, 0] ::
      uploadReqFrames k (tog ^^^ TOGGLE_BIT)

/-- Client-side decoding of an upload segment response: the payload is the
(7 minus the unused count in bits 1-3) bytes starting at byte 1. -/
def extractSegData (frame : List Nat) : List Nat :=
  (frame.drop 1).take (7 - ((getByte frame 0 >>> 1) &&& 0x7))

/-- A full segmented round trip: download the payload to entry (i, sub)
with a segmented download, then read it back with a segmented upload,
returning the download run and the upload run. -/
def segRoundTrip (s0 : Srv) (i sub : Nat) (payload : List Nat) :
    (Srv × List (List Nat)) × (Srv × List (List Nat)) :=
  let dl := runFrames s0
    (downloadInitFrame i sub payload.length :: downloadSegFrames payload 0)
  let ul := runFrames dl.1
    (uploadInitFrame i sub :: uploadReqFrames (numSegs payload.length) 0)
  (dl, ul)

/-- The padding count carried by a block-download end frame: bits 2-4 of the
command byte, as _end_block_download reads it. -/
def trimCount (command : Nat) : Nat := (command >>> 2) &&& 0x07

/-- The block-download buffer after _end_block_download pops the padding
bytes from its tail. -/
def trimmedData (buf : List Nat) (command : Nat) : List Nat :=
  buf.take (buf.length - trimCount command)

/-! ## Concrete states used to instantiate the theorems -/

/-- A session that is mid block download (used to exercise the dispatcher
and the block-download handlers on concrete frames). -/
def blockDlSrv : Srv := { initSrv [] with blockMode := true }

/-- A session that has sent two block-upload segments (sequence 2, both
recorded) and awaits the client's acknowledgment. -/
def ackSrv : Srv :=
  { initSrv [] with
    blockSequence := 2,
    blockSentSegments := [(1, [1, 9, 9, 9, 9, 9, 9, 9]), (2, [0x82, 8, 0, 0, 0, 0, 0, 0])] }

/-- A session holding a 3-byte segmented-upload buffer. -/
def segBufSrv : Srv := { initSrv [] with buffer := some [1, 2, 3] }

/-- A session ready to initiate a block upload of a 10-byte entry. -/
def blkUpSrv : Srv :=
  { initSrv [((0x2000, 0), [1, 2, 3, 4, 5, 6, 7, 8, 9, 10])] with index := 0x2000 }

/-- A CRC-enabled block download that has received one 7-byte segment:
the running checksum covers exactly those 7 bytes. -/
def crcDlSrv : Srv :=
  { initSrv [] with
    index := 0x2000, blockMode := true, blockCrcSupported := true,
    blockData := some [1, 2, 3, 4, 5, 6, 7],
    blockCrc := some (crcProcess crcInit [1, 2, 3, 4, 5, 6, 7]) }

/-- A block download without CRC whose buffer holds 3 bytes, about to be
ended. -/
def plainDlSrv : Srv :=
  { initSrv [] with index := 0x2002, blockMode := true, blockData := some [1, 2, 3] }

/-- A CRC-enabled block download that has received two segments, 9 real
bytes plus 5 padding bytes. -/
def crcDlSrv2 : Srv :=
  { initSrv [] with
    index := 0x2001, blockMode := true, blockCrcSupported := true,
    blockData := some [1, 2, 3, 4, 5, 6, 7, 8, 9, 0, 0, 0, 0, 0],
    blockCrc := some (crcProcess crcInit [1, 2, 3, 4, 5, 6, 7, 8, 9, 0, 0, 0, 0, 0]) }

/-! ## Claim theorems -/

/-- C4: for every block-download data segment whose 7-bit sequence number is
not exactly the session's current sequence plus 1, the server sends an abort
with code INVALID_SEQUENCE_NUMBER and the accumulation buffer is left
unmodified (the whole session state is in fact unchanged). -/
theorem C4_bad_sequence_aborts (s : Srv) (command : Nat) (request : List Nat)
    (h : command &&& 0x7F ≠ s.blockSequence + 1) :
    handle_block_download_segment s command request =
      (s, [mkAbortFrame s.index s.subindex ABORT_INVALID_SEQUENCE_NUMBER]) ∧
    (handle_block_download_segment s command request).1.blockData = s.blockData := by
  constructor
  · simp only [handle_block_download_segment]
    rw [if_pos h]
  · simp only [handle_block_download_segment]
    rw [if_pos h]

theorem C4_bad_sequence_aborts_witness :
    (5 : Nat) &&& 0x7F ≠ (initSrv []).blockSequence + 1 ∧
    handle_block_download_segment (initSrv []) 5 [5, 1, 2, 3, 4, 5, 6, 7] =
      (initSrv [], [mkAbortFrame 0 0 ABORT_INVALID_SEQUENCE_NUMBER]) :=
  ⟨by decide, (C4_bad_sequence_aborts (initSrv []) 5 [5, 1, 2, 3, 4, 5, 6, 7]
      (by decide)).1⟩

/-- C6: a segmented upload-segment request (with an active upload buffer) and
a segmented download-segment frame whose toggle bit differs from the stored
toggle are both answered by an abort coded TOGGLE_NOT_ALTERNATED, with the
session state (buffer included) unchanged. -/
theorem C6_toggle_mismatch_aborts (s : Srv) (command : Nat) (request buf : List Nat)
    (hbuf : s.buffer = some buf) (h : command &&& TOGGLE_BIT ≠ s.toggle) :
    segmented_upload s command =
      (s, [mkAbortFrame s.index s.subindex ABORT_TOGGLE_NOT_ALTERNATED]) ∧
    segmented_download s command request =
      (s, [mkAbortFrame s.index s.subindex ABORT_TOGGLE_NOT_ALTERNATED]) := by
  constructor
  · simp only [segmented_upload, hbuf]
    rw [if_pos h]
  · simp only [segmented_download]
    rw [if_pos h]

theorem C6_toggle_mismatch_aborts_witness :
    segBufSrv.buffer = some [1, 2, 3] ∧
    (0x10 : Nat) &&& TOGGLE_BIT ≠ segBufSrv.toggle ∧
    segmented_upload segBufSrv 0x10 =
      (segBufSrv, [mkAbortFrame 0 0 ABORT_TOGGLE_NOT_ALTERNATED]) :=
  ⟨by decide, by decide,
   (C6_toggle_mismatch_aborts segBufSrv 0x10
      [0x10, 0, 0, 0, 0, 0, 0, 0] [1, 2, 3] (by decide) (by decide)).1⟩

/-- C10: when the acknowledged sequence is strictly below the last sequence
sent, the ack handler changes only the negotiated block size: all other
fields (block buffer, running checksum, sequence counter, pending segments,
everything else) are untouched, and re-processing the identical ack frame
yields the identical state and the identical retransmission frames. -/
theorem ack_retransmit_spec (s : Srv) (request : List Nat)
    (h : (if request.length > 1 then getByte request 1 else 0) < s.blockSequence) :
    handle_block_upload_ack s request =
      ({ s with blockSize := min (max (if request.length > 2 then getByte request 2 else s.blockSize) 1) 127 },
       ((s.blockSentSegments.filter
           (fun p => (if request.length > 1 then getByte request 1 else 0) < p.1)).mergeSort
         (fun a b => a.1 ≤ b.1)).map Prod.snd) := by
  simp only [handle_block_upload_ack]
  rw [if_pos h]

theorem C10_ack_retransmit_only_blocksize (s : Srv) (request : List Nat)
    (h : (if request.length > 1 then getByte request 1 else 0) < s.blockSequence) :
    (handle_block_upload_ack s request).1 =
      { s with blockSize := min (max (if request.length > 2 then getByte request 2 else s.blockSize) 1) 127 } ∧
    handle_block_upload_ack (handle_block_upload_ack s request).1 request =
      handle_block_upload_ack s request := by
  have h1 : (handle_block_upload_ack s request).1 =
      { s with blockSize := min (max (if request.length > 2 then getByte request 2 else s.blockSize) 1) 127 } := by
    rw [ack_retransmit_spec s request h]
  refine ⟨h1, ?_⟩
  rw [h1]
  rw [ack_retransmit_spec _ _ h,
      ack_retransmit_spec
        ({ s with blockSize := min (max (if request.length > 2 then getByte request 2 else s.blockSize) 1) 127 })
        request h]
  simp only [Prod.mk.injEq, Srv.mk.injEq, and_true, true_and]
  by_cases h2 : request.length > 2
  · simp only [h2, if_true]
  · simp only [h2, if_false]
    omega

theorem C10_ack_retransmit_only_blocksize_witness :
    (if ([0xA2, 1, 127, 0, 0, 0, 0, 0] : List Nat).length > 1
       then getByte [0xA2, 1, 127, 0, 0, 0, 0, 0] 1 else 0) < ackSrv.blockSequence ∧
    handle_block_upload_ack (handle_block_upload_ack ackSrv [0xA2, 1, 127, 0, 0, 0, 0, 0]).1
        [0xA2, 1, 127, 0, 0, 0, 0, 0] =
      handle_block_upload_ack ackSrv [0xA2, 1, 127, 0, 0, 0, 0, 0] :=
  ⟨by decide,
   (C10_ack_retransmit_only_blocksize ackSrv [0xA2, 1, 127, 0, 0, 0, 0, 0] (by decide)).2⟩

/-- C8 counterexample: a frame whose command byte is exactly 0x80 (top bit
set, top 3 bits equal to the abort family) received while a block download is
active is routed to request_aborted, not to the block-download segment
handler: the dispatcher additionally requires a nonzero low-7-bit sequence
number, so the claim as stated fails at command byte 0x80. -/
theorem C8_counterexample :
    (getByte [0x80, 0, 0, 0, 0, 0, 0, 0] 0 &&& 0xE0 = REQUEST_ABORTED ∧
     blockDlSrv.blockMode = true) ∧
    on_request blockDlSrv [0x80, 0, 0, 0, 0, 0, 0, 0] ≠
      block_download blockDlSrv [0x80, 0, 0, 0, 0, 0, 0, 0] := by
  refine ⟨⟨by decide, by decide⟩, ?_⟩
  decide

/-- C8 amended: during an active block download, a frame whose top 3 bits
match the abort command family and whose low 7 bits are nonzero (a nonzero
block sequence number together with the client's last-segment top bit) is
routed to the block-download handler rather than treated as an inbound abort
notification; the frame 0x80 itself (low 7 bits zero) is treated as an
abort notification. -/
theorem C8_abort_family_routed_to_block_download (s : Srv) (data : List Nat)
    (hmode : s.blockMode = true)
    (hccs : getByte data 0 &&& 0xE0 = REQUEST_ABORTED)
    (hseq : getByte data 0 &&& 0x7F > 0) :
    on_request s data = block_download s data := by
  have h1 : getByte data 0 &&& 0xE0 ≠ REQUEST_UPLOAD := by
    rw [hccs]; decide
  have h2 : getByte data 0 &&& 0xE0 ≠ REQUEST_SEGMENT_UPLOAD := by
    rw [hccs]; decide
  have h3 : getByte data 0 &&& 0xE0 ≠ REQUEST_DOWNLOAD := by
    rw [hccs]; decide
  have h4 : getByte data 0 &&& 0xE0 ≠ REQUEST_SEGMENT_DOWNLOAD := by
    rw [hccs]; decide
  have h5 : getByte data 0 &&& 0xE0 ≠ REQUEST_BLOCK_UPLOAD := by
    rw [hccs]; decide
  have h6 : getByte data 0 &&& 0xE0 ≠ REQUEST_BLOCK_DOWNLOAD := by
    rw [hccs]; decide
  simp only [on_request]
  rw [if_neg h1, if_neg h2, if_neg h3, if_neg h4, if_neg h5, if_neg h6, if_pos hccs,
      if_pos (show s.blockMode = true ∧ getByte data 0 &&& 0x7F > 0 from ⟨hmode, hseq⟩)]

theorem C8_abort_family_routed_to_block_download_witness :
    (blockDlSrv.blockMode = true ∧
     getByte [0x81, 1, 2, 3, 4, 5, 6, 7] 0 &&& 0xE0 = REQUEST_ABORTED ∧
     getByte [0x81, 1, 2, 3, 4, 5, 6, 7] 0 &&& 0x7F > 0) ∧
    on_request blockDlSrv [0x81, 1, 2, 3, 4, 5, 6, 7] =
      block_download blockDlSrv [0x81, 1, 2, 3, 4, 5, 6, 7] :=
  ⟨⟨by decide, by decide, by decide⟩,
   C8_abort_family_routed_to_block_download blockDlSrv
     [0x81, 1, 2, 3, 4, 5, 6, 7] (by decide) (by decide) (by decide)⟩

/-- C2: handling of an upload-initiate request splits into three cases on
the length of the entry fetched from the store: an empty entry is answered
by an abort coded NO_DATA_AVAILABLE; an entry of 1 to 4 bytes by a single
expedited response whose command byte carries the expedited and
size-specified flags and the two-bit unused count (4 - size) shifted to
bits 2-3, with the data embedded at bytes 4..4+size and no session buffer
retained; a longer entry by a segmented-initiate response carrying the
little-endian total length at bytes 4-7, with the payload copied into the
session buffer and the toggle reset to 0. -/
theorem C2_init_upload_cases (s : Srv) (request d : List Nat)
    (hd : lookupStore s.store (getU16 request 1) (getByte request 3) = some d) :
    (d = [] →
      init_upload s request =
        ({ s with index := getU16 request 1, subindex := getByte request 3, blockMode := false },
         [mkAbortFrame (getU16 request 1) (getByte request 3) ABORT_NO_DATA_AVAILABLE])) ∧
    (d ≠ [] → d.length ≤ 4 →
      init_upload s request =
        ({ s with index := getU16 request 1, subindex := getByte request 3, blockMode := false },
         [pack4 (RESPONSE_UPLOAD ||| SIZE_SPECIFIED ||| EXPEDITED ||| ((4 - d.length) <<< 2))
            (getU16 request 1) (getByte request 3) ++ d ++ List.replicate (4 - d.length) 0]) ∧
      (init_upload s request).1.buffer = s.buffer) ∧
    (4 < d.length →
      init_upload s request =
        ({ s with index := getU16 request 1, subindex := getByte request 3, blockMode := false,
                  buffer := some d, toggle := 0 },
         [pack4 (RESPONSE_UPLOAD ||| SIZE_SPECIFIED) (getU16 request 1) (getByte request 3) ++
            le32 d.length])) := by
  refine ⟨?_, ?_, ?_⟩
  · intro h0
    subst h0
    simp only [init_upload, hd]
    rfl
  · intro hne hle
    have h0 : ¬ d.length = 0 := by
      simpa using hne
    have heq : init_upload s request =
        ({ s with index := getU16 request 1, subindex := getByte request 3, blockMode := false },
         [pack4 (RESPONSE_UPLOAD ||| SIZE_SPECIFIED ||| EXPEDITED ||| ((4 - d.length) <<< 2))
            (getU16 request 1) (getByte request 3) ++ d ++ List.replicate (4 - d.length) 0]) := by
      simp only [init_upload, hd]
      rw [if_neg h0, if_pos hle]
    refine ⟨heq, ?_⟩
    rw [heq]
  · intro hgt
    have h0 : ¬ d.length = 0 := by omega
    have hle : ¬ d.length ≤ 4 := by omega
    simp only [init_upload, hd]
    rw [if_neg h0, if_neg hle]

theorem C2_init_upload_cases_witness :
    lookupStore (initSrv [((0x2000, 0), [7, 8])]).store
        (getU16 [0x40, 0, 0x20, 0, 0, 0, 0, 0] 1) (getByte [0x40, 0, 0x20, 0, 0, 0, 0, 0] 3) =
      some [7, 8] ∧
    init_upload (initSrv [((0x2000, 0), [7, 8])]) [0x40, 0, 0x20, 0, 0, 0, 0, 0] =
      ({ initSrv [((0x2000, 0), [7, 8])] with index := 0x2000, subindex := 0, blockMode := false },
       [pack4 (RESPONSE_UPLOAD ||| SIZE_SPECIFIED ||| EXPEDITED ||| ((4 - 2) <<< 2))
          0x2000 0 ++ [7, 8] ++ List.replicate 2 0]) :=
  ⟨by decide, by
    have := ((C2_init_upload_cases (initSrv [((0x2000, 0), [7, 8])])
      [0x40, 0, 0x20, 0, 0, 0, 0, 0] [7, 8] (by decide)).2.1 (by decide) (by decide)).1
    simpa using this⟩

/-- C7: block-upload initiate clamps the negotiated block size into [1,127];
an empty entry is answered by an abort coded NO_DATA_AVAILABLE (the clamped
block size kept); otherwise the payload is stored in the block buffer, the
sequence counter reset to 0, the pending-segments list cleared, CRC-enabled
taken from the request's flag with a fresh running checksum when enabled,
and the response carries the 4-byte total length together with the
size-specified and CRC-supported flags. -/
theorem C7_init_block_upload (s : Srv) (command : Nat) (request d : List Nat) :
    (1 ≤ (init_block_upload s command request).1.blockSize ∧
     (init_block_upload s command request).1.blockSize ≤ 127 ∧
     (init_block_upload s command request).1.blockSize =
       min (max (if request.length > 4 then getByte request 4 else 127) 1) 127) ∧
    (lookupStore s.store s.index s.subindex = some [] →
      (init_block_upload s command request).2 =
        [mkAbortFrame s.index s.subindex ABORT_NO_DATA_AVAILABLE]) ∧
    (lookupStore s.store s.index s.subindex = some d → d ≠ [] →
      init_block_upload s command request =
        ({ s with
           blockSize := min (max (if request.length > 4 then getByte request 4 else 127) 1) 127,
           blockData := some d, blockTotalSize := d.length, blockSequence := 0,
           blockSentSegments := [], blockMode := true,
           blockCrcSupported := (command &&& CRC_SUPPORTED ≠ 0 : Bool),
           blockCrc := if command &&& CRC_SUPPORTED ≠ 0 then some crcInit else s.blockCrc },
         [pack4 (RESPONSE_BLOCK_UPLOAD ||| INITIATE_BLOCK_TRANSFER |||
             (if command &&& CRC_SUPPORTED ≠ 0 then CRC_SUPPORTED else 0) ||| BLOCK_SIZE_SPECIFIED)
            s.index s.subindex ++ le32 d.length])) := by
  have hbs : (init_block_upload s command request).1.blockSize =
      min (max (if request.length > 4 then getByte request 4 else 127) 1) 127 := by
    cases hl : lookupStore s.store s.index s.subindex with
    | none => simp only [init_block_upload, hl]
    | some q =>
      simp only [init_block_upload, hl]
      by_cases h0 : q.length = 0
      · rw [if_pos h0]
      · rw [if_neg h0]
  refine ⟨⟨?_, ?_, hbs⟩, ?_, ?_⟩
  · rw [hbs]; omega
  · rw [hbs]; omega
  · intro h0
    simp only [init_block_upload, h0]
    rfl
  · intro hd hne
    have h0 : ¬ d.length = 0 := by simpa using hne
    simp only [init_block_upload, hd]
    rw [if_neg h0]

theorem C7_init_block_upload_witness :
    (lookupStore blkUpSrv.store blkUpSrv.index blkUpSrv.subindex =
        some [1, 2, 3, 4, 5, 6, 7, 8, 9, 10] ∧
     ([1, 2, 3, 4, 5, 6, 7, 8, 9, 10] : List Nat) ≠ []) ∧
    init_block_upload blkUpSrv 0xA4 [0xA4, 0, 0x20, 0, 127, 0, 0, 0] =
      ({ blkUpSrv with
         blockSize := min (max (if ([0xA4, 0, 0x20, 0, 127, 0, 0, 0] : List Nat).length > 4
           then getByte [0xA4, 0, 0x20, 0, 127, 0, 0, 0] 4 else 127) 1) 127,
         blockData := some [1, 2, 3, 4, 5, 6, 7, 8, 9, 10], blockTotalSize := 10,
         blockSequence := 0, blockSentSegments := [], blockMode := true,
         blockCrcSupported := ((0xA4 : Nat) &&& CRC_SUPPORTED ≠ 0 : Bool),
         blockCrc := if (0xA4 : Nat) &&& CRC_SUPPORTED ≠ 0 then some crcInit
                     else blkUpSrv.blockCrc },
       [pack4 (RESPONSE_BLOCK_UPLOAD ||| INITIATE_BLOCK_TRANSFER |||
           (if (0xA4 : Nat) &&& CRC_SUPPORTED ≠ 0 then CRC_SUPPORTED else 0) |||
           BLOCK_SIZE_SPECIFIED)
          blkUpSrv.index blkUpSrv.subindex ++ le32 10]) :=
  ⟨⟨by decide, by decide⟩,
   (C7_init_block_upload blkUpSrv 0xA4 [0xA4, 0, 0x20, 0, 127, 0, 0, 0]
      [1, 2, 3, 4, 5, 6, 7, 8, 9, 10]).2.2 (by decide) (by decide)⟩

set_option maxRecDepth 8000 in
/-- C5 counterexample: a block-download end frame whose padding count (7)
trims the whole buffer away is compared against the running checksum kept
during receipt, not against a checksum recomputed over the (empty) trimmed
buffer: at this input the carried CRC differs from the checksum of the
trimmed buffer, yet the server does not abort CRC_ERROR and performs the
store write. -/
theorem C5_counterexample :
    (crcDlSrv.blockCrcSupported = true ∧ crcDlSrv.blockCrc.isSome = true ∧
     getU16 ([0xDD] ++ le16 (crcProcess crcInit [1, 2, 3, 4, 5, 6, 7]) ++ [0, 0, 0, 0, 0]) 1 ≠
       crcFinal (crcProcess crcInit (trimmedData [1, 2, 3, 4, 5, 6, 7] 0xDD))) ∧
    (end_block_download crcDlSrv 0xDD
        ([0xDD] ++ le16 (crcProcess crcInit [1, 2, 3, 4, 5, 6, 7]) ++ [0, 0, 0, 0, 0])).2 ≠
      [mkAbortFrame crcDlSrv.index crcDlSrv.subindex ABORT_CRC_ERROR] ∧
    (end_block_download crcDlSrv 0xDD
        ([0xDD] ++ le16 (crcProcess crcInit [1, 2, 3, 4, 5, 6, 7]) ++ [0, 0, 0, 0, 0])).1.store ≠
      crcDlSrv.store := by
  refine ⟨⟨by decide, by decide, by decide⟩, by decide, by decide⟩

/-- C5 amended: for every block-download end frame carrying a CRC (with CRC
negotiated at initiate) received when the padding-trimmed buffer is still
nonempty, a carried CRC different from the checksum recomputed over the
trimmed buffer makes the server send an abort coded CRC_ERROR and perform
no object-store write; when trimming empties the buffer the code instead
compares against the running checksum accumulated during receipt. -/
theorem C5_crc_mismatch_aborts (s : Srv) (command : Nat) (request buf : List Nat)
    (hsup : s.blockCrcSupported = true) (hobj : s.blockCrc.isSome = true)
    (hbuf : s.blockData = some buf) (hn : trimCount command < buf.length)
    (hlen : 3 ≤ request.length)
    (hmis : getU16 request 1 ≠ crcFinal (crcProcess crcInit (trimmedData buf command))) :
    end_block_download s command request =
      ({ s with blockData := some (trimmedData buf command),
                blockCrc := some (crcProcess crcInit (trimmedData buf command)) },
       [mkAbortFrame s.index s.subindex ABORT_CRC_ERROR]) ∧
    (end_block_download s command request).1.store = s.store := by
  have hb : buf ≠ [] := by
    intro h
    rw [h] at hn
    simp only [trimCount, List.length_nil] at hn
    omega
  have hnil : buf.take (buf.length - ((command >>> 2) &&& 0x07)) ≠ [] := by
    simp only [trimCount] at hn
    simp only [ne_eq, List.take_eq_nil_iff, not_or]
    exact ⟨by omega, hb⟩
  have hne : (buf.take (buf.length - ((command >>> 2) &&& 0x07))).isEmpty = false := by
    simp [List.isEmpty_iff, hnil]
  have heq : end_block_download s command request =
      ({ s with blockData := some (trimmedData buf command),
                blockCrc := some (crcProcess crcInit (trimmedData buf command)) },
       [mkAbortFrame s.index s.subindex ABORT_CRC_ERROR]) := by
    simp only [trimmedData, trimCount] at hmis ⊢
    simp only [end_block_download, hbuf, Option.map_some', Option.getD_some]
    rw [if_pos (show s.blockCrcSupported = true ∧ s.blockCrc.isSome = true ∧
      (List.take (buf.length - (command >>> 2 &&& 7)) buf).isEmpty = false from
        ⟨hsup, hobj, hne⟩)]
    simp only [Option.isSome_some, Option.getD_some]
    rw [if_pos (show s.blockCrcSupported = true ∧ 3 ≤ request.length ∧ True ∧
      getU16 request 1 ≠ crcFinal (crcProcess crcInit
        (List.take (buf.length - (command >>> 2 &&& 7)) buf)) from ⟨hsup, hlen, trivial, hmis⟩)]
  exact ⟨heq, by rw [heq]⟩

set_option maxRecDepth 8000 in
theorem C5_crc_mismatch_aborts_witness :
    (crcDlSrv2.blockCrcSupported = true ∧ crcDlSrv2.blockCrc.isSome = true ∧
     crcDlSrv2.blockData = some [1, 2, 3, 4, 5, 6, 7, 8, 9, 0, 0, 0, 0, 0] ∧
     trimCount 0xD5 < ([1, 2, 3, 4, 5, 6, 7, 8, 9, 0, 0, 0, 0, 0] : List Nat).length ∧
     3 ≤ ([0xD5, 0, 0, 0, 0, 0, 0, 0] : List Nat).length ∧
     getU16 [0xD5, 0, 0, 0, 0, 0, 0, 0] 1 ≠
       crcFinal (crcProcess crcInit
         (trimmedData [1, 2, 3, 4, 5, 6, 7, 8, 9, 0, 0, 0, 0, 0] 0xD5))) ∧
    end_block_download crcDlSrv2 0xD5 [0xD5, 0, 0, 0, 0, 0, 0, 0] =
      ({ crcDlSrv2 with
         blockData := some (trimmedData [1, 2, 3, 4, 5, 6, 7, 8, 9, 0, 0, 0, 0, 0] 0xD5),
         blockCrc := some (crcProcess crcInit
           (trimmedData [1, 2, 3, 4, 5, 6, 7, 8, 9, 0, 0, 0, 0, 0] 0xD5)) },
       [mkAbortFrame crcDlSrv2.index crcDlSrv2.subindex ABORT_CRC_ERROR]) :=
  ⟨⟨by decide, by decide, by decide, by decide, by decide, by decide⟩,
   (C5_crc_mismatch_aborts crcDlSrv2 0xD5 [0xD5, 0, 0, 0, 0, 0, 0, 0]
      [1, 2, 3, 4, 5, 6, 7, 8, 9, 0, 0, 0, 0, 0] (by decide) (by decide) (by decide)
      (by decide) (by decide) (by decide)).1⟩

set_option maxRecDepth 8000 in
/-- C9 counterexample: the CRC-mismatch abort of _end_block_download leaves
the block-mode flag set and the block buffer present, so the claim that
every protocol-level abort resets the transfer state to Idle/empty fails at
this input. -/
theorem C9_counterexample :
    (end_block_download crcDlSrv 0xC1 [0xC1, 0, 0, 0, 0, 0, 0, 0]).2 =
      [mkAbortFrame crcDlSrv.index crcDlSrv.subindex ABORT_CRC_ERROR] ∧
    (end_block_download crcDlSrv 0xC1 [0xC1, 0, 0, 0, 0, 0, 0, 0]).1.blockMode = true ∧
    (end_block_download crcDlSrv 0xC1 [0xC1, 0, 0, 0, 0, 0, 0, 0]).1.blockData ≠ none := by
  refine ⟨by decide, by decide, by decide⟩

/-- C9 amended: block-transfer state is reset to Idle/empty on normal
completion (end of block upload; block-download end that passes the CRC
check clears the buffer, checksum object and block-mode flag), and a new
expedited/segmented initiate clears the block-mode flag; but the
CRC-mismatch abort path leaves the block-mode flag and block buffer as they
were, and normal completion of a segmented download leaves the accumulated
session buffer in place. -/
theorem C9_lifecycle (s : Srv) (command : Nat) (request buf buf2 : List Nat) :
    ((end_block_upload s).1.blockData = none ∧ (end_block_upload s).1.blockCrc = none ∧
     (end_block_upload s).1.blockMode = false) ∧
    (s.blockData = some buf →
      ((end_block_download s command request).2 =
         [mkAbortFrame s.index s.subindex ABORT_CRC_ERROR] ∧
       (end_block_download s command request).1.blockMode = s.blockMode ∧
       (end_block_download s command request).1.blockData.isSome = true) ∨
      ((end_block_download s command request).2 =
         [[RESPONSE_BLOCK_DOWNLOAD ||| END_BLOCK_TRANSFER, 0, 0, 0, 0, 0, 0, 0]] ∧
       (end_block_download s command request).1.blockData = none ∧
       (end_block_download s command request).1.blockCrc = none ∧
       (end_block_download s command request).1.blockMode = false)) ∧
    ((init_upload s request).1.blockMode = false ∧
     (init_download s request).1.blockMode = false) ∧
    (s.buffer = some buf2 → (segmented_download s command request).1.buffer ≠ none) := by
  refine ⟨⟨rfl, rfl, rfl⟩, ?_, ⟨?_, ?_⟩, ?_⟩
  · intro hbuf
    simp only [end_block_download, hbuf, Option.map_some', Option.getD_some]
    split_ifs with h1 h2 h3
    · exact Or.inl ⟨rfl, rfl, rfl⟩
    · exact Or.inr ⟨rfl, rfl, rfl, rfl⟩
    · exact Or.inl ⟨rfl, rfl, rfl⟩
    · exact Or.inr ⟨rfl, rfl, rfl, rfl⟩
  · cases hl : lookupStore s.store (getU16 request 1) (getByte request 3) with
    | none => simp only [init_upload, hl]
    | some q =>
      simp only [init_upload, hl]
      by_cases h0 : q.length = 0
      · rw [if_pos h0]
      · rw [if_neg h0]
        by_cases h4 : q.length ≤ 4
        · rw [if_pos h4]
        · rw [if_neg h4]
  · simp only [init_download]
    by_cases he : getByte request 0 &&& EXPEDITED ≠ 0
    · rw [if_pos he]
    · rw [if_neg he]
  · intro hbuf2
    simp only [segmented_download]
    by_cases ht : command &&& TOGGLE_BIT ≠ s.toggle
    · rw [if_pos ht]
      simp [hbuf2]
    · rw [if_neg ht]
      simp only [hbuf2]
      by_cases hm : command &&& NO_MORE_DATA ≠ 0
      · rw [if_pos hm]
        simp
      · rw [if_neg hm]
        simp

theorem C9_lifecycle_witness :
    plainDlSrv.blockData = some [1, 2, 3] ∧
    (((end_block_download plainDlSrv 0xC1 [0xC1, 0, 0, 0, 0, 0, 0, 0]).2 =
        [mkAbortFrame plainDlSrv.index plainDlSrv.subindex ABORT_CRC_ERROR] ∧
      (end_block_download plainDlSrv 0xC1 [0xC1, 0, 0, 0, 0, 0, 0, 0]).1.blockMode =
        plainDlSrv.blockMode ∧
      (end_block_download plainDlSrv 0xC1 [0xC1, 0, 0, 0, 0, 0, 0, 0]).1.blockData.isSome =
        true) ∨
     ((end_block_download plainDlSrv 0xC1 [0xC1, 0, 0, 0, 0, 0, 0, 0]).2 =
        [[RESPONSE_BLOCK_DOWNLOAD ||| END_BLOCK_TRANSFER, 0, 0, 0, 0, 0, 0, 0]] ∧
      (end_block_download plainDlSrv 0xC1 [0xC1, 0, 0, 0, 0, 0, 0, 0]).1.blockData = none ∧
      (end_block_download plainDlSrv 0xC1 [0xC1, 0, 0, 0, 0, 0, 0, 0]).1.blockCrc = none ∧
      (end_block_download plainDlSrv 0xC1 [0xC1, 0, 0, 0, 0, 0, 0, 0]).1.blockMode = false)) :=
  ⟨by decide,
   (C9_lifecycle plainDlSrv 0xC1 [0xC1, 0, 0, 0, 0, 0, 0, 0] [1, 2, 3] []).2.1 (by decide)⟩

/-- Every frame emitted by the block-upload window loop is recorded, paired
with its sequence number, at the tail of blockSentSegments: the recorded
copies are byte-identical to the transmitted frames, in transmission
order. -/
theorem sendSegmentsLoop_record (fuel : Nat) : ∀ t : Srv,
    ∃ new : List (Nat × List Nat),
      (sendSegmentsLoop fuel t).1.blockSentSegments = t.blockSentSegments ++ new ∧
      (sendSegmentsLoop fuel t).2 = new.map Prod.snd := by
  induction fuel with
  | zero =>
    intro t
    exact ⟨[], by simp [sendSegmentsLoop], by simp [sendSegmentsLoop]⟩
  | succ n ih =>
    intro t
    match hbd : t.blockData with
    | none => exact ⟨[], by simp [sendSegmentsLoop, hbd], by simp [sendSegmentsLoop, hbd]⟩
    | some [] => exact ⟨[], by simp [sendSegmentsLoop, hbd], by simp [sendSegmentsLoop, hbd]⟩
    | some (b :: bs) =>
      simp only [sendSegmentsLoop, hbd]
      obtain ⟨new, h1, h2⟩ := ih _
      refine ⟨(t.blockSequence + 1,
        [t.blockSequence + 1 |||
          (if ((b :: bs).drop 7).isEmpty = true then NO_MORE_BLOCKS else 0)] ++
          (b :: bs).take 7 ++ List.replicate (7 - ((b :: bs).take 7).length) 0) :: new,
        ?_, ?_⟩
      · rw [h1]
        simp
      · rw [h2]
        simp

/-- C3: when the acknowledged sequence is strictly below the last sequence
sent, the server re-sends exactly the recorded segments whose sequence
number exceeds the acknowledged one, sorted in ascending sequence order;
and every frame recorded in the pending-segments list is byte-identical to
the frame emitted at its first transmission (the window loop records
exactly what it sends, in order). -/
theorem C3_ack_retransmits_missing (s : Srv) (request : List Nat)
    (h : (if request.length > 1 then getByte request 1 else 0) < s.blockSequence) :
    ((handle_block_upload_ack s request).2 =
      ((s.blockSentSegments.filter
          (fun p => (if request.length > 1 then getByte request 1 else 0) < p.1)).mergeSort
        (fun a b => a.1 ≤ b.1)).map Prod.snd ∧
     List.Pairwise (fun a b : Nat × List Nat => a.1 ≤ b.1)
       ((s.blockSentSegments.filter
           (fun p => (if request.length > 1 then getByte request 1 else 0) < p.1)).mergeSort
         (fun a b => a.1 ≤ b.1)) ∧
     ((s.blockSentSegments.filter
         (fun p => (if request.length > 1 then getByte request 1 else 0) < p.1)).mergeSort
       (fun a b => a.1 ≤ b.1)).Perm
       (s.blockSentSegments.filter
         (fun p => (if request.length > 1 then getByte request 1 else 0) < p.1))) ∧
    (∀ t : Srv,
      ∃ new : List (Nat × List Nat),
        (send_block_upload_segments t).1.blockSentSegments = t.blockSentSegments ++ new ∧
        (send_block_upload_segments t).2 = new.map Prod.snd) := by
  refine ⟨⟨?_, ?_, ?_⟩, ?_⟩
  · rw [ack_retransmit_spec s request h]
  · have hp := @List.sorted_mergeSort (Nat × List Nat)
      (fun a b => decide (a.1 ≤ b.1))
      (fun a b c hab hbc => by
        simp only [decide_eq_true_eq] at *
        omega)
      (fun a b => by
        simp only [Bool.or_eq_true, decide_eq_true_eq]
        exact Nat.le_total a.1 b.1)
      (s.blockSentSegments.filter
        (fun p => (if request.length > 1 then getByte request 1 else 0) < p.1))
    exact hp.imp (fun hab => by simpa using hab)
  · exact List.mergeSort_perm _ _
  · exact fun t => sendSegmentsLoop_record t.blockSize t

theorem C3_ack_retransmits_missing_witness :
    (if ([0xA2, 1, 0, 0, 0, 0, 0, 0] : List Nat).length > 1
       then getByte [0xA2, 1, 0, 0, 0, 0, 0, 0] 1 else 0) < ackSrv.blockSequence ∧
    (handle_block_upload_ack ackSrv [0xA2, 1, 0, 0, 0, 0, 0, 0]).2 =
      ((ackSrv.blockSentSegments.filter
          (fun p => (if ([0xA2, 1, 0, 0, 0, 0, 0, 0] : List Nat).length > 1
             then getByte [0xA2, 1, 0, 0, 0, 0, 0, 0] 1 else 0) < p.1)).mergeSort
        (fun a b => a.1 ≤ b.1)).map Prod.snd :=
  ⟨by decide,
   ((C3_ack_retransmits_missing ackSrv [0xA2, 1, 0, 0, 0, 0, 0, 0] (by decide)).1).1⟩

/-- Bit-level facts about a segment command byte assembled from a toggle
bit, a 3-bit unused count shifted to bits 1-3 and a last-flag in bit 0:
its command family is 0, and the three fields read back unchanged. -/
theorem segCmdFacts (tog n lf : Nat) (htog : tog = 0 ∨ tog = 16)
    (hn1 : 1 ≤ n) (hn7 : n ≤ 7) (hlf : lf = 0 ∨ lf = 1) :
    (tog ||| ((7 - n) <<< 1) ||| lf) &&& 0xE0 = 0 ∧
    (tog ||| ((7 - n) <<< 1) ||| lf) &&& TOGGLE_BIT = tog ∧
    (((tog ||| ((7 - n) <<< 1) ||| lf) >>> 1) &&& 0x7) = 7 - n ∧
    ((tog ||| ((7 - n) <<< 1) ||| lf) &&& NO_MORE_DATA) = lf := by
  rcases htog with rfl | rfl <;> rcases hlf with rfl | rfl <;>
    interval_cases n <;> decide

/-- A segmented download of a payload takes the ceiling of length / 7
segment frames. -/
theorem downloadSegFrames_length (payload : List Nat) (tog : Nat) :
    (downloadSegFrames payload tog).length = numSegs payload.length := by
  rw [downloadSegFrames]
  by_cases h : payload.isEmpty
  · rw [if_pos h]
    have hnil : payload = [] := List.isEmpty_iff.mp h
    subst hnil
    rfl
  · rw [if_neg h]
    simp only [List.length_cons]
    rw [downloadSegFrames_length (payload.drop 7) (tog ^^^ TOGGLE_BIT)]
    have hne : payload ≠ [] := fun hh => h (by simp [hh])
    have hpos : 0 < payload.length := List.length_pos.mpr hne
    simp only [numSegs, List.length_drop]
    omega
termination_by payload.length
decreasing_by
  have hne : payload ≠ [] := fun hh => h (by simp [hh])
  have hpos : 0 < payload.length := List.length_pos.mpr hne
  simp only [List.length_drop]
  omega

/-- Dispatch and effect of one well-formed download segment frame carrying
chunk (1-7 bytes) with the last-flag set when rest is empty: the dispatcher
routes it to segmented_download, the chunk is appended to the session
buffer, the store is written exactly when the last-flag is set, and the
toggle flips. -/
theorem download_seg_step (s : Srv) (chunk rest acc : List Nat) (tog : Nat)
    (hc1 : 1 ≤ chunk.length) (hc7 : chunk.length ≤ 7) (htog : tog = 0 ∨ tog = 16)
    (hbuf : s.buffer = some acc) (htogs : s.toggle = tog) (hbm : s.blockMode = false) :
    on_request s
      ([tog ||| ((7 - chunk.length) <<< 1) ||| (if rest.isEmpty then NO_MORE_DATA else 0)] ++
        chunk ++ List.replicate (7 - chunk.length) 0) =
      ((if rest.isEmpty then
          { s with buffer := some (acc ++ chunk),
                   store := setStore s.store s.index s.subindex (acc ++ chunk),
                   toggle := tog ^^^ TOGGLE_BIT }
        else
          { s with buffer := some (acc ++ chunk), toggle := tog ^^^ TOGGLE_BIT }),
       [[RESPONSE_SEGMENT_DOWNLOAD ||| tog, 0, 0, 0, 0, 0, 0, 0]]) := by
  have hlf : (if rest.isEmpty then NO_MORE_DATA else 0) = 0 ∨
      (if rest.isEmpty then NO_MORE_DATA else 0) = 1 := by
    by_cases h : rest.isEmpty <;> simp [h, NO_MORE_DATA]
  have hfacts := segCmdFacts tog chunk.length
    (if rest.isEmpty then NO_MORE_DATA else 0) htog hc1 hc7 hlf
  have hb0 : getByte
      ([tog ||| ((7 - chunk.length) <<< 1) ||| (if rest.isEmpty then NO_MORE_DATA else 0)] ++
        chunk ++ List.replicate (7 - chunk.length) 0) 0 =
      tog ||| ((7 - chunk.length) <<< 1) ||| (if rest.isEmpty then NO_MORE_DATA else 0) := rfl
  simp only [on_request, hb0]
  rw [hfacts.1]
  rw [if_neg (by decide : ¬ (0 : Nat) = REQUEST_UPLOAD),
      if_neg (by decide : ¬ (0 : Nat) = REQUEST_SEGMENT_UPLOAD),
      if_neg (by decide : ¬ (0 : Nat) = REQUEST_DOWNLOAD),
      if_pos (by decide : (0 : Nat) = REQUEST_SEGMENT_DOWNLOAD)]
  rw [if_neg (show ¬ s.blockMode = true by simp [hbm])]
  have htogeq : (tog ||| ((7 - chunk.length) <<< 1) |||
      (if rest.isEmpty then NO_MORE_DATA else 0)) &&& TOGGLE_BIT = s.toggle := by
    rw [htogs]
    exact hfacts.2.1
  simp only [segmented_download, hbuf]
  rw [if_neg (fun hcon => hcon htogeq)]
  rw [hfacts.2.2.1]
  have hn : 8 - (7 - chunk.length) - 1 = chunk.length := by omega
  have hdrop : ([tog ||| ((7 - chunk.length) <<< 1) |||
      (if rest.isEmpty then NO_MORE_DATA else 0)] ++
        chunk ++ List.replicate (7 - chunk.length) 0).drop 1 =
      chunk ++ List.replicate (7 - chunk.length) 0 := rfl
  rw [hdrop, hn, List.take_left]
  rw [hfacts.2.2.2]
  by_cases hlast : rest.isEmpty
  · simp only [hlast, if_true, NO_MORE_DATA]
    rw [if_pos (by decide : (1 : Nat) ≠ 0), htogs]
  · simp only [hlast, if_false]
    rw [if_neg (by simp), htogs]
    rfl

/-- Running a full well-formed download segment sequence from a state whose
session buffer holds acc appends the payload, writes acc ++ payload to the
store at the session target on the final segment, preserves the target, and
answers every segment frame with exactly one response. -/
theorem download_run (payload acc : List Nat) (s : Srv) (tog : Nat)
    (hp : payload ≠ []) (htog : tog = 0 ∨ tog = 16)
    (hbuf : s.buffer = some acc) (htogs : s.toggle = tog) (hbm : s.blockMode = false) :
    (runFrames s (downloadSegFrames payload tog)).1.store =
      setStore s.store s.index s.subindex (acc ++ payload) ∧
    (runFrames s (downloadSegFrames payload tog)).1.index = s.index ∧
    (runFrames s (downloadSegFrames payload tog)).1.subindex = s.subindex ∧
    (runFrames s (downloadSegFrames payload tog)).2.length = numSegs payload.length := by
  have hpe : ¬ payload.isEmpty = true := by simp [List.isEmpty_iff, hp]
  have hppos : 0 < payload.length := List.length_pos.mpr hp
  have hc1 : 1 ≤ (payload.take 7).length := by
    simp only [List.length_take]
    omega
  have hc7 : (payload.take 7).length ≤ 7 := by
    simp only [List.length_take]
    omega
  have hstep := download_seg_step s (payload.take 7) (payload.drop 7) acc tog hc1 hc7
    htog hbuf htogs hbm
  rw [downloadSegFrames, if_neg hpe]
  simp only [runFrames]
  rw [hstep]
  by_cases hlast : (payload.drop 7).isEmpty
  · have hlen7 : payload.length ≤ 7 := by
      have hd := List.isEmpty_iff.mp hlast
      have h2 := congrArg List.length hd
      simp only [List.length_drop, List.length_nil] at h2
      omega
    have htake : payload.take 7 = payload := List.take_of_length_le hlen7
    rw [downloadSegFrames, if_pos hlast]
    simp only [runFrames, hlast, if_true, htake, numSegs, List.length_append,
      List.length_cons, List.length_nil]
    exact ⟨trivial, trivial, trivial, by omega⟩
  · have hdne : payload.drop 7 ≠ [] := by
      intro hh
      rw [hh] at hlast
      simp at hlast
    have hdpos : 0 < payload.length - 7 := by
      have := List.length_pos.mpr hdne
      simpa using this
    have htog2 : tog ^^^ TOGGLE_BIT = 0 ∨ tog ^^^ TOGGLE_BIT = 16 := by
      rcases htog with rfl | rfl
      · right
        decide
      · left
        decide
    rw [if_neg hlast]
    have ih := download_run (payload.drop 7) (acc ++ payload.take 7)
      { s with buffer := some (acc ++ payload.take 7), toggle := tog ^^^ TOGGLE_BIT }
      (tog ^^^ TOGGLE_BIT) hdne htog2 rfl rfl hbm
    obtain ⟨ih1, ih2, ih3, ih4⟩ := ih
    refine ⟨?_, ?_, ?_, ?_⟩
    · rw [ih1, List.append_assoc, List.take_append_drop]
    · rw [ih2]
    · rw [ih3]
    · simp only [List.length_append, List.length_cons, List.length_nil, ih4]
      simp only [numSegs, List.length_drop]
      omega
termination_by payload.length
decreasing_by
  simp only [List.length_drop]
  omega

/-- Dispatch and effect of one upload segment request when the session
buffer holds b: the server emits the next 7-byte chunk with the unused
count and the no-more-data flag encoded in the command byte, consumes the
chunk from the buffer and flips the toggle; the client-side decoder
recovers exactly the chunk from the response. -/
theorem upload_seg_step (s : Srv) (b : List Nat) (tog : Nat)
    (hb : b ≠ []) (htog : tog = 0 ∨ tog = 16)
    (hbuf : s.buffer = some b) (htogs : s.toggle = tog) :
    on_request s [REQUEST_SEGMENT_UPLOAD ||| tog, 0, 0, 0, 0, 0, 0, 0] =
      ({ s with buffer := some (b.drop 7), toggle := tog ^^^ TOGGLE_BIT },
       [[RESPONSE_SEGMENT_UPLOAD ||| tog ||| ((7 - (b.take 7).length) <<< 1) |||
           (if (b.drop 7).isEmpty then NO_MORE_DATA else 0)] ++
         b.take 7 ++ List.replicate (7 - (b.take 7).length) 0]) ∧
    extractSegData
      ([RESPONSE_SEGMENT_UPLOAD ||| tog ||| ((7 - (b.take 7).length) <<< 1) |||
          (if (b.drop 7).isEmpty then NO_MORE_DATA else 0)] ++
        b.take 7 ++ List.replicate (7 - (b.take 7).length) 0) = b.take 7 := by
  have hbpos : 0 < b.length := List.length_pos.mpr hb
  have hc1 : 1 ≤ (b.take 7).length := by
    simp only [List.length_take]
    omega
  have hc7 : (b.take 7).length ≤ 7 := by
    simp only [List.length_take]
    omega
  have hlf : (if (b.drop 7).isEmpty then NO_MORE_DATA else 0) = 0 ∨
      (if (b.drop 7).isEmpty then NO_MORE_DATA else 0) = 1 := by
    by_cases h : (b.drop 7).isEmpty <;> simp [h, NO_MORE_DATA]
  have hfacts := segCmdFacts tog (b.take 7).length
    (if (b.drop 7).isEmpty then NO_MORE_DATA else 0) htog hc1 hc7 hlf
  have hres : RESPONSE_SEGMENT_UPLOAD ||| tog ||| ((7 - (b.take 7).length) <<< 1) |||
      (if (b.drop 7).isEmpty then NO_MORE_DATA else 0) =
      tog ||| ((7 - (b.take 7).length) <<< 1) |||
        (if (b.drop 7).isEmpty then NO_MORE_DATA else 0) := by
    simp [RESPONSE_SEGMENT_UPLOAD]
  constructor
  · have hccs : getByte [REQUEST_SEGMENT_UPLOAD ||| tog, 0, 0, 0, 0, 0, 0, 0] 0 &&& 0xE0 =
        REQUEST_SEGMENT_UPLOAD := by
      rcases htog with rfl | rfl <;> decide
    simp only [on_request]
    rw [hccs]
    rw [if_neg (by decide : ¬ REQUEST_SEGMENT_UPLOAD = REQUEST_UPLOAD),
        if_pos (rfl : REQUEST_SEGMENT_UPLOAD = REQUEST_SEGMENT_UPLOAD)]
    have htoga : getByte [REQUEST_SEGMENT_UPLOAD ||| tog, 0, 0, 0, 0, 0, 0, 0] 0 &&&
        TOGGLE_BIT = s.toggle := by
      rw [htogs]
      rcases htog with rfl | rfl <;> decide
    simp only [segmented_upload, hbuf]
    rw [if_neg (fun hcon => hcon htoga)]
    rw [htogs]
  · simp only [extractSegData]
    have hb0 : getByte
        ([RESPONSE_SEGMENT_UPLOAD ||| tog ||| ((7 - (b.take 7).length) <<< 1) |||
            (if (b.drop 7).isEmpty then NO_MORE_DATA else 0)] ++
          b.take 7 ++ List.replicate (7 - (b.take 7).length) 0) 0 =
        tog ||| ((7 - (b.take 7).length) <<< 1) |||
          (if (b.drop 7).isEmpty then NO_MORE_DATA else 0) := by
      rw [show getByte
        ([RESPONSE_SEGMENT_UPLOAD ||| tog ||| ((7 - (b.take 7).length) <<< 1) |||
            (if (b.drop 7).isEmpty then NO_MORE_DATA else 0)] ++
          b.take 7 ++ List.replicate (7 - (b.take 7).length) 0) 0 =
        RESPONSE_SEGMENT_UPLOAD ||| tog ||| ((7 - (b.take 7).length) <<< 1) |||
          (if (b.drop 7).isEmpty then NO_MORE_DATA else 0) from rfl, hres]
    rw [hb0, hfacts.2.2.1]
    have hsz : 7 - (7 - (b.take 7).length) = (b.take 7).length := by omega
    have hd : List.drop 1
        ([RESPONSE_SEGMENT_UPLOAD ||| tog ||| ((7 - (b.take 7).length) <<< 1) |||
            (if (b.drop 7).isEmpty then NO_MORE_DATA else 0)] ++
          b.take 7 ++ List.replicate (7 - (b.take 7).length) 0) =
        b.take 7 ++ List.replicate (7 - (b.take 7).length) 0 := rfl
    rw [hd, hsz, List.take_left]

/-- Driving a segmented upload with the ceiling of length / 7 toggle
alternating segment requests streams out exactly the buffered bytes, one
response per request, and empties the session buffer. -/
theorem upload_run (b : List Nat) (s : Srv) (tog : Nat)
    (hb : b ≠ []) (htog : tog = 0 ∨ tog = 16)
    (hbuf : s.buffer = some b) (htogs : s.toggle = tog) :
    ((runFrames s (uploadReqFrames (numSegs b.length) tog)).2.map extractSegData).flatten = b ∧
    (runFrames s (uploadReqFrames (numSegs b.length) tog)).2.length = numSegs b.length ∧
    (runFrames s (uploadReqFrames (numSegs b.length) tog)).1.buffer = some [] := by
  have hbpos : 0 < b.length := List.length_pos.mpr hb
  have hsucc : numSegs b.length = numSegs (b.length - 7) + 1 := by
    simp only [numSegs]
    omega
  have hstep := upload_seg_step s b tog hb htog hbuf htogs
  rw [hsucc]
  simp only [uploadReqFrames, runFrames]
  rw [hstep.1]
  by_cases hlast : (b.drop 7).isEmpty
  · have hlen7 : b.length ≤ 7 := by
      have hd := List.isEmpty_iff.mp hlast
      have h2 := congrArg List.length hd
      simp only [List.length_drop, List.length_nil] at h2
      omega
    have hzero : b.length - 7 = 0 := by omega
    rw [hzero]
    simp only [numSegs, uploadReqFrames, runFrames]
    refine ⟨?_, by simp, ?_⟩
    · simp only [List.append_nil, List.map_cons, List.map_nil, List.flatten]
      rw [hstep.2]
      simp [List.take_of_length_le hlen7]
    · simp only [List.isEmpty_iff.mp hlast]
  · have hdne : b.drop 7 ≠ [] := by
      intro hh
      rw [hh] at hlast
      simp at hlast
    have htog2 : tog ^^^ TOGGLE_BIT = 0 ∨ tog ^^^ TOGGLE_BIT = 16 := by
      rcases htog with rfl | rfl
      · right
        decide
      · left
        decide
    have ih := upload_run (b.drop 7)
      { s with buffer := some (b.drop 7), toggle := tog ^^^ TOGGLE_BIT }
      (tog ^^^ TOGGLE_BIT) hdne htog2 rfl rfl
    rw [show (b.drop 7).length = b.length - 7 from by simp] at ih
    obtain ⟨ih1, ih2, ih3⟩ := ih
    refine ⟨?_, ?_, ?_⟩
    · simp only [List.map_append, List.map_cons, List.map_nil, List.flatten_append,
        List.flatten_cons, List.flatten_nil, hstep.2, ih1]
      simp [List.take_append_drop]
    · simp only [List.length_append, List.length_cons, List.length_nil, ih2]
      omega
    · exact ih3
termination_by b.length
decreasing_by
  simp only [List.length_drop]
  omega

/-- Reading back the entry just written returns exactly the written bytes. -/
theorem lookupStore_setStore (st : Store) (i sub : Nat) (v : List Nat) :
    lookupStore (setStore st i sub v) i sub = some v := by
  simp [lookupStore, setStore]

/-- Effect of a segmented download-initiate frame: the dispatcher routes it
to init_download, which records the target, clears block mode, resets the
session buffer to empty with toggle 0, and echoes a download response. -/
theorem download_init_step (s : Srv) (i sub L : Nat) (hi : i < 65536) (hsub : sub < 256) :
    on_request s (downloadInitFrame i sub L) =
      ({ s with index := i, subindex := sub, blockMode := false,
                buffer := some [], toggle := 0 },
       [pack4 RESPONSE_DOWNLOAD i sub ++ [0, 0, 0, 0]]) := by
  have hu : getU16 (downloadInitFrame i sub L) 1 = i := by
    simp only [downloadInitFrame, getU16, getByte, le32, List.cons_append,
      List.nil_append, List.getD_cons_zero, List.getD_cons_succ]
    omega
  have hs3 : getByte (downloadInitFrame i sub L) 3 = sub := by
    simp only [downloadInitFrame, getByte, le32, List.cons_append,
      List.nil_append, List.getD_cons_zero, List.getD_cons_succ]
    omega
  have hb0 : getByte (downloadInitFrame i sub L) 0 = REQUEST_DOWNLOAD ||| SIZE_SPECIFIED := rfl
  simp only [on_request, hb0]
  rw [if_neg (by decide : ¬ (REQUEST_DOWNLOAD ||| SIZE_SPECIFIED) &&& 0xE0 = REQUEST_UPLOAD),
      if_neg (by decide :
        ¬ (REQUEST_DOWNLOAD ||| SIZE_SPECIFIED) &&& 0xE0 = REQUEST_SEGMENT_UPLOAD),
      if_pos (by decide : (REQUEST_DOWNLOAD ||| SIZE_SPECIFIED) &&& 0xE0 = REQUEST_DOWNLOAD)]
  simp only [init_download, hb0, hu, hs3]
  rw [if_neg (by decide : ¬ (REQUEST_DOWNLOAD ||| SIZE_SPECIFIED) &&& EXPEDITED ≠ 0)]

/-- Effect of an upload-initiate frame on an entry longer than 4 bytes: the
dispatcher routes it to init_upload, which records the target, clears block
mode, copies the entry into the session buffer with toggle 0, and answers
with the size-specified segmented-initiate response carrying the length. -/
theorem upload_init_step (s : Srv) (i sub : Nat) (payload : List Nat)
    (hi : i < 65536) (hsub : sub < 256) (hL : 4 < payload.length)
    (hst : lookupStore s.store i sub = some payload) :
    on_request s (uploadInitFrame i sub) =
      ({ s with index := i, subindex := sub, blockMode := false,
                buffer := some payload, toggle := 0 },
       [pack4 (RESPONSE_UPLOAD ||| SIZE_SPECIFIED) i sub ++ le32 payload.length]) := by
  have hu : getU16 (uploadInitFrame i sub) 1 = i := by
    simp only [uploadInitFrame, getU16, getByte, List.getD_cons_zero, List.getD_cons_succ]
    omega
  have hs3 : getByte (uploadInitFrame i sub) 3 = sub := by
    simp only [uploadInitFrame, getByte, List.getD_cons_zero, List.getD_cons_succ]
    omega
  have hb0 : getByte (uploadInitFrame i sub) 0 = REQUEST_UPLOAD := rfl
  simp only [on_request, hb0]
  rw [if_pos (by decide : REQUEST_UPLOAD &&& 0xE0 = REQUEST_UPLOAD)]
  simp only [init_upload, hu, hs3, hst]
  rw [if_neg (by omega : ¬ payload.length = 0), if_neg (by omega : ¬ payload.length ≤ 4)]

/-- C1: for every payload longer than 4 bytes, a segmented download
(initiate, then 7-byte segments with toggle alternating 0,1,0,1,...)
followed by a segmented upload of the same entry reconstructs exactly the
original bytes: the store holds the payload after the download, the
upload's decoded segment responses concatenate to the payload, and each
direction takes exactly the ceiling of length / 7 segment frames (one
response per segment beyond the initiate response); the upload ends with
the session buffer drained. -/
theorem C1_segmented_roundtrip (s0 : Srv) (i sub : Nat) (payload : List Nat)
    (hL : 4 < payload.length) (hi : i < 65536) (hsub : sub < 256) :
    lookupStore (segRoundTrip s0 i sub payload).1.1.store i sub = some payload ∧
    (downloadSegFrames payload 0).length = numSegs payload.length ∧
    (segRoundTrip s0 i sub payload).1.2.length = 1 + numSegs payload.length ∧
    List.flatten
      (((segRoundTrip s0 i sub payload).2.2.drop 1).map extractSegData) = payload ∧
    (segRoundTrip s0 i sub payload).2.2.length = 1 + numSegs payload.length ∧
    (segRoundTrip s0 i sub payload).2.1.buffer = some [] := by
  have hp : payload ≠ [] := by
    intro h
    rw [h] at hL
    simp at hL
  have hdl := download_run payload []
    { s0 with index := i, subindex := sub, blockMode := false,
              buffer := some [], toggle := 0 } 0 hp (Or.inl rfl) rfl rfl rfl
  obtain ⟨hdl1, hdl2, hdl3, hdl4⟩ := hdl
  have hlook : lookupStore
      (runFrames
        { s0 with index := i, subindex := sub, blockMode := false,
                  buffer := some [], toggle := 0 }
        (downloadSegFrames payload 0)).1.store i sub = some payload := by
    rw [hdl1]
    simp only [List.nil_append]
    exact lookupStore_setStore s0.store i sub payload
  have hul := upload_run payload
    { (runFrames
        { s0 with index := i, subindex := sub, blockMode := false,
                  buffer := some [], toggle := 0 }
        (downloadSegFrames payload 0)).1 with
      index := i, subindex := sub, blockMode := false,
      buffer := some payload, toggle := 0 } 0 hp (Or.inl rfl) rfl rfl
  obtain ⟨hul1, hul2, hul3⟩ := hul
  simp only [segRoundTrip, runFrames]
  rw [download_init_step s0 i sub payload.length hi hsub]
  simp only []
  rw [upload_init_step _ i sub payload hi hsub hL hlook]
  simp only [List.cons_append, List.nil_append, List.length_cons, List.drop_succ_cons,
    List.drop_zero]
  exact ⟨hlook, downloadSegFrames_length payload 0, by rw [hdl4]; omega,
    hul1, by rw [hul2]; omega, hul3⟩

theorem C1_segmented_roundtrip_witness :
    (4 < ([1, 2, 3, 4, 5] : List Nat).length ∧ (0x2000 : Nat) < 65536 ∧ (0 : Nat) < 256) ∧
    lookupStore (segRoundTrip (initSrv []) 0x2000 0 [1, 2, 3, 4, 5]).1.1.store 0x2000 0 =
      some [1, 2, 3, 4, 5] ∧
    List.flatten
      (((segRoundTrip (initSrv []) 0x2000 0 [1, 2, 3, 4, 5]).2.2.drop 1).map
        extractSegData) = [1, 2, 3, 4, 5] :=
  ⟨⟨by decide, by decide, by decide⟩,
   (C1_segmented_roundtrip (initSrv []) 0x2000 0 [1, 2, 3, 4, 5]
      (by decide) (by decide) (by decide)).1,
   (C1_segmented_roundtrip (initSrv []) 0x2000 0 [1, 2, 3, 4, 5]
      (by decide) (by decide) (by decide)).2.2.2.1⟩

end Canopen
